import Mathlib

/-!
Shallow embedding of `src/Caching Backend/main.py` (FastAPI caching-patterns
demo) and proofs about its caching orchestration logic.

Modelling conventions:
* `simulated_db` (the Store) and the Redis cache are modelled as total
  functions `String → Option ItemInDB`; Redis keys keep the source's
  `"item:" ++ item_id` prefix.
* The float fields `value` and `timestamp` are only ever copied, never
  computed with, so they are modelled as `Rat`; the `timestamp` assigned by
  `time.time()` is passed in as an explicit `now` parameter.
* FastAPI `BackgroundTasks` (the deferred write of write-behind) is modelled
  as a FIFO `queue` in the state; a separate `runDeferredTask` step consumes
  its head, mirroring FastAPI running the task after the response.
* Any awaited adapter call in the Python code may raise (Redis calls raise
  network errors; per the spec the store adapter is likewise abstract and
  fallible).  Each orchestrator operation therefore takes one `Bool` outcome
  flag per fallible adapter call, in source order; a `false` flag means that
  call raised, and — exactly as an uncaught Python exception does — aborts the
  rest of the function body, leaving later calls unexecuted.  A raised store
  call surfaces as `storeUnavailable`, a raised cache call as
  `cacheUnavailable`, and the `HTTPException(404)` as `notFound`.
* Each operation also returns the list of adapter calls it actually performed
  (`Event`s), so that "no Store access" style properties are directly
  observable.
-/

/-- `Item` (pydantic `BaseModel`): the request body of the write endpoints. -/
structure Item where
  name : String
  description : String
  value : Rat
deriving DecidableEq, Repr

/-- `ItemInDB` (pydantic): an `Item` plus `item_id` and `timestamp`. -/
structure ItemInDB where
  name : String
  description : String
  value : Rat
  item_id : String
  timestamp : Rat
deriving DecidableEq, Repr

/-- `REDIS_TTL_SECONDS = 30`: fixed TTL for cached items. -/
def REDIS_TTL_SECONDS : Nat := 30

/-- The Redis key used throughout the source: `f"item:{item_id}"`. -/
def itemKey (item_id : String) : String := "item:" ++ item_id

/-- The whole mutable state of the program: the simulated database dict, the
Redis cache contents, and the pending background (deferred write) tasks. -/
structure State where
  simulated_db : String → Option ItemInDB
  cache : String → Option ItemInDB
  queue : List (String × ItemInDB)

/-- Initial state: empty database, empty cache, no pending tasks. -/
def initState : State :=
  { simulated_db := fun _ => none, cache := fun _ => none, queue := [] }

/-- Adapter calls actually performed by an operation, in order. -/
inductive Event where
  | dbRead (item_id : String)
  | dbWrite (item_id : String) (rec : ItemInDB)
  | dbDelete (item_id : String)
  | cacheGet (key : String)
  | cacheSetex (key : String) (ttl : Nat) (rec : ItemInDB)
  | cacheDelete (key : String)
  | enqueueTask (item_id : String) (rec : ItemInDB)
deriving DecidableEq, Repr

/-- Error outcomes surfaced by an operation. -/
inductive Err where
  | notFound
  | storeUnavailable
  | cacheUnavailable
deriving DecidableEq, Repr

/-- Result of one orchestrator operation: the returned value or error, the
post-state, and the adapter calls performed. -/
def OpResult (α : Type) := Except Err α × State × List Event

/-- `get_item_from_db`: `simulated_db.get(item_id)`. -/
def get_item_from_db (s : State) (item_id : String) : Option ItemInDB :=
  s.simulated_db item_id

/-- `write_item_to_db`: `simulated_db[item_id] = item_data`. -/
def write_item_to_db (s : State) (item_id : String) (item_data : ItemInDB) : State :=
  { s with simulated_db := fun k => if k = item_id then some item_data else s.simulated_db k }

/-- `delete_item_from_db`: `del simulated_db[item_id]` when present, no-op
otherwise (both branches just leave the key absent). -/
def delete_item_from_db (s : State) (item_id : String) : State :=
  { s with simulated_db := fun k => if k = item_id then none else s.simulated_db k }

/-- `redis_client.get(key)`. -/
def redis_get (s : State) (key : String) : Option ItemInDB :=
  s.cache key

/-- `redis_client.setex(key, ttl, value)`. -/
def redis_setex (s : State) (key : String) (rec : ItemInDB) : State :=
  { s with cache := fun k => if k = key then some rec else s.cache k }

/-- `redis_client.delete(key)`: returns the deleted count (0 or 1). -/
def redis_delete (s : State) (key : String) : State × Nat :=
  ({ s with cache := fun k => if k = key then none else s.cache k },
   if (s.cache key).isSome then 1 else 0)

/-- The `ItemInDB` built by both write endpoints:
`item_data = item.model_dump(); item_data["item_id"] = item_id;
item_data["timestamp"] = time.time()`. -/
def mkItemData (item_id : String) (item : Item) (now : Rat) : ItemInDB :=
  { name := item.name, description := item.description, value := item.value,
    item_id := item_id, timestamp := now }

/-- `create_item_write_through` (POST `/write-through/{item_id}`):
write to the database, then `setex` the same value into the cache, then return
it.  `dbOk` / `cacheOk` are the outcomes of the two awaited calls. -/
def create_item_write_through (dbOk cacheOk : Bool) (item_id : String) (item : Item)
    (now : Rat) (s : State) : OpResult ItemInDB :=
  let item_data := mkItemData item_id item now
  if !dbOk then
    (.error .storeUnavailable, s, [])
  else
    let s1 := write_item_to_db s item_id item_data
    if !cacheOk then
      (.error .cacheUnavailable, s1, [.dbWrite item_id item_data])
    else
      (.ok item_data, redis_setex s1 (itemKey item_id) item_data,
       [.dbWrite item_id item_data,
        .cacheSetex (itemKey item_id) REDIS_TTL_SECONDS item_data])

/-- `create_item_write_behind` (POST `/write-behind/{item_id}`):
`setex` into the cache, then `background_tasks.add_task(write_item_to_db, ...)`
(which cannot fail), then return.  `cacheOk` is the outcome of the awaited
cache write. -/
def create_item_write_behind (cacheOk : Bool) (item_id : String) (item : Item)
    (now : Rat) (s : State) : OpResult ItemInDB :=
  let item_data := mkItemData item_id item now
  if !cacheOk then
    (.error .cacheUnavailable, s, [])
  else
    let s1 := redis_setex s (itemKey item_id) item_data
    (.ok item_data,
     { s1 with queue := s1.queue ++ [(item_id, item_data)] },
     [.cacheSetex (itemKey item_id) REDIS_TTL_SECONDS item_data,
      .enqueueTask item_id item_data])

/-- `read_through_get_item` (helper behind GET `/read-through/{item_id}`):
check the cache; on hit return the cached record; on miss fetch from the
database, 404 if absent, otherwise populate the cache and return.
`cacheGetOk` / `dbOk` / `cacheSetOk` are the outcomes of the three awaited
calls, in source order. -/
def read_through_get_item (cacheGetOk dbOk cacheSetOk : Bool) (item_id : String)
    (s : State) : OpResult ItemInDB :=
  if !cacheGetOk then
    (.error .cacheUnavailable, s, [])
  else
    match redis_get s (itemKey item_id) with
    | some cached_item => (.ok cached_item, s, [.cacheGet (itemKey item_id)])
    | none =>
      if !dbOk then
        (.error .storeUnavailable, s, [.cacheGet (itemKey item_id)])
      else
        match get_item_from_db s item_id with
        | none =>
          (.error .notFound, s, [.cacheGet (itemKey item_id), .dbRead item_id])
        | some db_item =>
          if !cacheSetOk then
            (.error .cacheUnavailable, s,
             [.cacheGet (itemKey item_id), .dbRead item_id])
          else
            (.ok db_item, redis_setex s (itemKey item_id) db_item,
             [.cacheGet (itemKey item_id), .dbRead item_id,
              .cacheSetex (itemKey item_id) REDIS_TTL_SECONDS db_item])

/-- `get_item_read_through` (GET `/read-through/{item_id}`): delegates to
`read_through_get_item`. -/
def get_item_read_through (cacheGetOk dbOk cacheSetOk : Bool) (item_id : String)
    (s : State) : OpResult ItemInDB :=
  read_through_get_item cacheGetOk dbOk cacheSetOk item_id s

/-- `get_item_cache_aside` (GET `/cache-aside/{item_id}`): its body repeats the
read-through logic line for line: check the cache, return on hit, otherwise
fetch from the database, 404 if absent, else populate the cache and return. -/
def get_item_cache_aside (cacheGetOk dbOk cacheSetOk : Bool) (item_id : String)
    (s : State) : OpResult ItemInDB :=
  if !cacheGetOk then
    (.error .cacheUnavailable, s, [])
  else
    match redis_get s (itemKey item_id) with
    | some cached_item => (.ok cached_item, s, [.cacheGet (itemKey item_id)])
    | none =>
      if !dbOk then
        (.error .storeUnavailable, s, [.cacheGet (itemKey item_id)])
      else
        match get_item_from_db s item_id with
        | none =>
          (.error .notFound, s, [.cacheGet (itemKey item_id), .dbRead item_id])
        | some db_item =>
          if !cacheSetOk then
            (.error .cacheUnavailable, s,
             [.cacheGet (itemKey item_id), .dbRead item_id])
          else
            (.ok db_item, redis_setex s (itemKey item_id) db_item,
             [.cacheGet (itemKey item_id), .dbRead item_id,
              .cacheSetex (itemKey item_id) REDIS_TTL_SECONDS db_item])

/-- `invalidate_cache` (DELETE `/invalidate-cache/{item_id}`):
`redis_client.delete(f"item:{item_id}")`, then a message depending on whether
the deleted count was positive.  `cacheOk` is the outcome of the awaited
delete. -/
def invalidate_cache (cacheOk : Bool) (item_id : String) (s : State) :
    OpResult String :=
  if !cacheOk then
    (.error .cacheUnavailable, s, [])
  else
    let r := redis_delete s (itemKey item_id)
    if r.2 > 0 then
      (.ok ("Cache for item " ++ item_id ++ " invalidated."), r.1,
       [.cacheDelete (itemKey item_id)])
    else
      (.ok ("Item " ++ item_id ++ " was not in cache."), r.1,
       [.cacheDelete (itemKey item_id)])

/-- `delete_item` (DELETE `/delete-item/{item_id}`): delete from the database,
then invalidate the cache entry.  `dbOk` / `cacheOk` are the outcomes of the
two awaited calls. -/
def delete_item (dbOk cacheOk : Bool) (item_id : String) (s : State) :
    OpResult String :=
  if !dbOk then
    (.error .storeUnavailable, s, [])
  else
    let s1 := delete_item_from_db s item_id
    let r := invalidate_cache cacheOk item_id s1
    match r.1 with
    | .error e => (.error e, r.2.1, .dbDelete item_id :: r.2.2)
    | .ok _ =>
      (.ok ("Item " ++ item_id ++ " deleted from DB and cache invalidated."),
       r.2.1, .dbDelete item_id :: r.2.2)

/-- Background execution of one deferred `write_item_to_db` task (FastAPI runs
queued `BackgroundTasks` after the response is sent). -/
def runDeferredTask (s : State) : State × List Event :=
  match s.queue with
  | [] => (s, [])
  | (item_id, item_data) :: rest =>
    ({ write_item_to_db s item_id item_data with queue := rest },
     [.dbWrite item_id item_data])

/-- TTL expiry of one cache entry, performed autonomously by Redis at any
time. -/
def expireCacheEntry (s : State) (key : String) : State :=
  { s with cache := fun k => if k = key then none else s.cache k }

/-- Reachability: states obtainable from the empty initial state by any
sequence of exposed operations (with any adapter outcomes), background task
executions and TTL expiries, together with the accumulated event trace. -/
inductive Reach : State → List Event → Prop where
  | init : Reach initState []
  | writeThrough (s : State) (tr : List Event) (dbOk cacheOk : Bool)
      (item_id : String) (item : Item) (now : Rat) :
      Reach s tr →
      Reach (create_item_write_through dbOk cacheOk item_id item now s).2.1
        (tr ++ (create_item_write_through dbOk cacheOk item_id item now s).2.2)
  | writeBehind (s : State) (tr : List Event) (cacheOk : Bool)
      (item_id : String) (item : Item) (now : Rat) :
      Reach s tr →
      Reach (create_item_write_behind cacheOk item_id item now s).2.1
        (tr ++ (create_item_write_behind cacheOk item_id item now s).2.2)
  | readThrough (s : State) (tr : List Event) (cacheGetOk dbOk cacheSetOk : Bool)
      (item_id : String) :
      Reach s tr →
      Reach (get_item_read_through cacheGetOk dbOk cacheSetOk item_id s).2.1
        (tr ++ (get_item_read_through cacheGetOk dbOk cacheSetOk item_id s).2.2)
  | cacheAside (s : State) (tr : List Event) (cacheGetOk dbOk cacheSetOk : Bool)
      (item_id : String) :
      Reach s tr →
      Reach (get_item_cache_aside cacheGetOk dbOk cacheSetOk item_id s).2.1
        (tr ++ (get_item_cache_aside cacheGetOk dbOk cacheSetOk item_id s).2.2)
  | invalidate (s : State) (tr : List Event) (cacheOk : Bool) (item_id : String) :
      Reach s tr →
      Reach (invalidate_cache cacheOk item_id s).2.1
        (tr ++ (invalidate_cache cacheOk item_id s).2.2)
  | deleteItem (s : State) (tr : List Event) (dbOk cacheOk : Bool) (item_id : String) :
      Reach s tr →
      Reach (delete_item dbOk cacheOk item_id s).2.1
        (tr ++ (delete_item dbOk cacheOk item_id s).2.2)
  | deferred (s : State) (tr : List Event) :
      Reach s tr →
      Reach (runDeferredTask s).1 (tr ++ (runDeferredTask s).2)
  | expire (s : State) (tr : List Event) (key : String) :
      Reach s tr →
      Reach (expireCacheEntry s key) tr

/-- A concrete request body used in witnesses and counterexamples. -/
def itemA : Item := { name := "A", description := "first item", value := 1 }

/-- The record `itemA` becomes when written under id `"42"` at time 0. -/
def recA : ItemInDB := mkItemData "42" itemA 0

/-- A concrete state whose database holds `recA` and whose cache is empty. -/
def stateWithA : State := write_item_to_db initState "42" recA

/-- State after a single successful `create_item_write_behind` from the
initial state. -/
def wbState : State := (create_item_write_behind true "42" itemA 0 initState).2.1

/-- Event trace of that single `create_item_write_behind`. -/
def wbTrace : List Event := (create_item_write_behind true "42" itemA 0 initState).2.2

/-- Every record in the Store was put there by a recorded Store write, and
every cached record is value-identical either to a record some Store write in
the trace has held, or to a record whose deferred write task is still pending
in the queue. -/
def CacheJustified (s : State) (tr : List Event) : Prop :=
  (∀ k r, s.simulated_db k = some r → Event.dbWrite k r ∈ tr) ∧
  (∀ k r, s.cache k = some r →
    (∃ item_id, Event.dbWrite item_id r ∈ tr) ∨
    (∃ item_id, (item_id, r) ∈ s.queue))

/-- C1: if `writeThrough(id, item)` returns normally, the returned record and
the records subsequently held by both the Store (`simulated_db`) and the Cache
under that id agree with `item` in `name`, `description` and `value`, carry the
given id, and differ from `item` only by the assigned timestamp. -/
theorem writeThrough_success_store_and_cache_agree
    (dbOk cacheOk : Bool) (item_id : String) (item : Item) (now : Rat)
    (s : State) (res : ItemInDB)
    (h : (create_item_write_through dbOk cacheOk item_id item now s).1 = .ok res) :
    (create_item_write_through dbOk cacheOk item_id item now s).2.1.simulated_db item_id
        = some res ∧
    (create_item_write_through dbOk cacheOk item_id item now s).2.1.cache (itemKey item_id)
        = some res ∧
    res.name = item.name ∧ res.description = item.description ∧
    res.value = item.value ∧ res.item_id = item_id ∧ res.timestamp = now := by
  cases dbOk <;> cases cacheOk <;>
    simp only [create_item_write_through, Bool.not_false, Bool.not_true,
      if_true, if_false, Bool.false_eq_true, reduceIte] at h ⊢
  · exact absurd h (by simp)
  · exact absurd h (by simp)
  · exact absurd h (by simp)
  · obtain rfl : mkItemData item_id item now = res := by
      simpa using h
    simp [write_item_to_db, redis_setex, mkItemData]

/-- Witness for `writeThrough_success_store_and_cache_agree` at a concrete
input. -/
theorem writeThrough_success_store_and_cache_agree_witness :
    (create_item_write_through true true "42" itemA 0 initState).2.1.simulated_db "42"
        = some recA ∧
    (create_item_write_through true true "42" itemA 0 initState).2.1.cache (itemKey "42")
        = some recA ∧
    recA.name = itemA.name ∧ recA.description = itemA.description ∧
    recA.value = itemA.value ∧ recA.item_id = "42" ∧ recA.timestamp = 0 :=
  writeThrough_success_store_and_cache_agree true true "42" itemA 0 initState recA rfl

/-- C4: `writeBehind(id, item)` with a successful cache write returns success
with the new record immediately in the cache, the store untouched (persistence
deferred), and exactly one deferred write task for `(id, record)` appended to
the queue; with a failed cache write the whole operation fails and nothing at
all changes — in particular nothing is enqueued. -/
theorem writeBehind_contract
    (item_id : String) (item : Item) (now : Rat) (s : State) :
    ((create_item_write_behind true item_id item now s).1
        = .ok (mkItemData item_id item now) ∧
     (create_item_write_behind true item_id item now s).2.1.cache (itemKey item_id)
        = some (mkItemData item_id item now) ∧
     (create_item_write_behind true item_id item now s).2.1.simulated_db
        = s.simulated_db ∧
     (create_item_write_behind true item_id item now s).2.1.queue
        = s.queue ++ [(item_id, mkItemData item_id item now)]) ∧
    create_item_write_behind false item_id item now s
        = (.error .cacheUnavailable, s, []) := by
  refine ⟨⟨rfl, ?_, rfl, rfl⟩, rfl⟩
  simp [create_item_write_behind, redis_setex]

/-- C5: if the Store write raises during `writeThrough(id, item)`, the
operation fails with `storeUnavailable` and returns the state bit-for-bit
unchanged (in particular the cache is untouched), whatever the cache adapter
would have done; moreover in the successful run the Store write event precedes
the cache write event, showing the Store write is attempted first. -/
theorem writeThrough_storeFail_cache_untouched
    (cacheOk : Bool) (item_id : String) (item : Item) (now : Rat) (s : State) :
    create_item_write_through false cacheOk item_id item now s
        = (.error .storeUnavailable, s, []) ∧
    (create_item_write_through true true item_id item now s).2.2
        = [Event.dbWrite item_id (mkItemData item_id item now),
           Event.cacheSetex (itemKey item_id) REDIS_TTL_SECONDS
             (mkItemData item_id item now)] :=
  ⟨rfl, rfl⟩

/-- C6: if the Store write succeeds but the cache write raises during
`writeThrough(id, item)`, the operation fails with `cacheUnavailable` — an
error distinct from the Store-failure error — while the durable write is in
place (the store holds the new record) and the cache is unchanged. -/
theorem writeThrough_cacheFail_distinct_error
    (item_id : String) (item : Item) (now : Rat) (s : State) :
    (create_item_write_through true false item_id item now s).1
        = .error .cacheUnavailable ∧
    Err.cacheUnavailable ≠ Err.storeUnavailable ∧
    (create_item_write_through true false item_id item now s).2.1.simulated_db item_id
        = some (mkItemData item_id item now) ∧
    (create_item_write_through true false item_id item now s).2.1.cache
        = s.cache := by
  refine ⟨rfl, by simp, ?_, rfl⟩
  simp [create_item_write_through, write_item_to_db]

/-- `"item:" ++ ·` is injective, so distinct item ids use distinct cache
keys. -/
theorem itemKey_inj {a b : String} (h : itemKey a = itemKey b) : a = b := by
  unfold itemKey at h
  have hd : ("item:" ++ a).data = ("item:" ++ b).data := by rw [h]
  simp only [String.data_append] at hd
  have h2 := List.append_cancel_left hd
  cases a
  cases b
  simp only at h2
  exact congrArg String.mk h2

/-- C7 counterexample: the claim says a failing cache `get` during a read is
not fatal and the read falls back to the Store.  In the code there is no
exception handler: on the concrete state whose store holds `recA` under id
`"42"`, both reads with a raising cache `get` return `cacheUnavailable` — they
do not return the store's record, so the reads do fail on cache trouble
alone. -/
theorem read_cacheFail_falls_back_cex :
    stateWithA.simulated_db "42" = some recA ∧
    (get_item_cache_aside false true true "42" stateWithA).1
        = Except.error Err.cacheUnavailable ∧
    (get_item_cache_aside false true true "42" stateWithA).1
        ≠ Except.ok recA ∧
    (get_item_read_through false true true "42" stateWithA).1
        = Except.error Err.cacheUnavailable ∧
    (get_item_read_through false true true "42" stateWithA).1
        ≠ Except.ok recA := by
  refine ⟨by simp [stateWithA, write_item_to_db, initState], rfl, fun hc => ?_, rfl,
    fun hc => ?_⟩ <;> exact Except.noConfusion hc

/-- C7 amended: if the cache `get` raises during `readThrough(id)` or
`readCacheAside(id)`, the exception propagates: the read fails with
`cacheUnavailable`, no Store access happens, and the state is unchanged (there
is no fallback to the Store). -/
theorem read_cacheFail_propagates
    (dbOk cacheSetOk : Bool) (item_id : String) (s : State) :
    get_item_cache_aside false dbOk cacheSetOk item_id s
        = (.error .cacheUnavailable, s, []) ∧
    get_item_read_through false dbOk cacheSetOk item_id s
        = (.error .cacheUnavailable, s, []) :=
  ⟨rfl, rfl⟩

/-- C9: the read-through endpoint and the cache-aside endpoint are
behaviorally identical: same returned value or error, same post-state, and the
same adapter calls, on every input, state and combination of adapter
outcomes. -/
theorem readThrough_cacheAside_equivalent
    (cacheGetOk dbOk cacheSetOk : Bool) (item_id : String) (s : State) :
    get_item_read_through cacheGetOk dbOk cacheSetOk item_id s
        = get_item_cache_aside cacheGetOk dbOk cacheSetOk item_id s :=
  rfl

/-- A successful `invalidate_cache` just clears the cache key of `item_id`,
in both the found and the not-found branch. -/
theorem invalidate_cache_state (item_id : String) (s : State) :
    (invalidate_cache true item_id s).2.1
      = { s with cache := fun k => if k = itemKey item_id then none else s.cache k } := by
  by_cases h : (s.cache (itemKey item_id)).isSome <;>
    simp [invalidate_cache, redis_delete, h]

/-- C10: `invalidate(id)` touches at most the cache entry of `id`: the store
and the queue are unchanged, any cache key other than `"item:" ++ id` is
unchanged, and in particular the cache entry of any other item id is
unchanged — whether or not an entry for `id` was present, and whether or not
the cache delete raised. -/
theorem invalidate_frame
    (cacheOk : Bool) (item_id k id2 : String) (s : State)
    (hk : k ≠ itemKey item_id) (hid2 : id2 ≠ item_id) :
    (invalidate_cache cacheOk item_id s).2.1.simulated_db = s.simulated_db ∧
    (invalidate_cache cacheOk item_id s).2.1.queue = s.queue ∧
    (invalidate_cache cacheOk item_id s).2.1.cache k = s.cache k ∧
    (invalidate_cache cacheOk item_id s).2.1.cache (itemKey id2)
        = s.cache (itemKey id2) := by
  have hkey : itemKey id2 ≠ itemKey item_id := fun hc => hid2 (itemKey_inj hc)
  cases cacheOk
  · exact ⟨rfl, rfl, rfl, rfl⟩
  · rw [invalidate_cache_state]
    exact ⟨rfl, rfl, if_neg hk, if_neg hkey⟩

/-- Witness for `invalidate_frame` at concrete inputs. -/
theorem invalidate_frame_witness :
    (invalidate_cache true "42" stateWithA).2.1.simulated_db
        = stateWithA.simulated_db ∧
    (invalidate_cache true "42" stateWithA).2.1.queue = stateWithA.queue ∧
    (invalidate_cache true "42" stateWithA).2.1.cache "other"
        = stateWithA.cache "other" ∧
    (invalidate_cache true "42" stateWithA).2.1.cache (itemKey "7")
        = stateWithA.cache (itemKey "7") :=
  invalidate_frame true "42" "other" "7" stateWithA (by decide) (by decide)

/-- C2: with all adapter calls succeeding, both read operations follow the
read-miss protocol exactly.  On a cache hit they return the cached record
having touched nothing but the cache (no Store access appears among the
events, and the state is unchanged); on a miss with no Store record they fail
with `notFound` and create no cache entry (state unchanged); on a miss with a
Store record they populate the cache with that record and return it. -/
theorem read_protocol
    (item_id : String) (s : State) :
    match s.cache (itemKey item_id), s.simulated_db item_id with
    | some r, _ =>
        get_item_cache_aside true true true item_id s
            = (.ok r, s, [.cacheGet (itemKey item_id)]) ∧
        get_item_read_through true true true item_id s
            = (.ok r, s, [.cacheGet (itemKey item_id)])
    | none, none =>
        get_item_cache_aside true true true item_id s
            = (.error .notFound, s,
               [.cacheGet (itemKey item_id), .dbRead item_id]) ∧
        get_item_read_through true true true item_id s
            = (.error .notFound, s,
               [.cacheGet (itemKey item_id), .dbRead item_id])
    | none, some r =>
        get_item_cache_aside true true true item_id s
            = (.ok r, redis_setex s (itemKey item_id) r,
               [.cacheGet (itemKey item_id), .dbRead item_id,
                .cacheSetex (itemKey item_id) REDIS_TTL_SECONDS r]) ∧
        get_item_read_through true true true item_id s
            = (.ok r, redis_setex s (itemKey item_id) r,
               [.cacheGet (itemKey item_id), .dbRead item_id,
                .cacheSetex (itemKey item_id) REDIS_TTL_SECONDS r]) := by
  rcases h1 : s.cache (itemKey item_id) with _ | r <;>
    rcases h2 : s.simulated_db item_id with _ | r' <;>
      simp only [] <;>
        constructor <;>
          simp [get_item_cache_aside, get_item_read_through, read_through_get_item,
            redis_get, get_item_from_db, h1, h2]

/-- C8: with all adapter calls succeeding, `deleteAndInvalidate(id)` leaves
neither a Store record nor a cache entry for `id`, performs the Store delete
before the cache invalidation (and performs the invalidation on every state,
whether or not the Store delete found a record), and a subsequent
`readCacheAside(id)` yields `notFound`. -/
theorem deleteAndInvalidate_then_read_notFound
    (item_id : String) (s : State) :
    (delete_item true true item_id s).2.1.simulated_db item_id = none ∧
    (delete_item true true item_id s).2.1.cache (itemKey item_id) = none ∧
    (delete_item true true item_id s).2.2
        = [Event.dbDelete item_id, Event.cacheDelete (itemKey item_id)] ∧
    (get_item_cache_aside true true true item_id
        (delete_item true true item_id s).2.1).1 = .error .notFound := by
  have hstate : (delete_item true true item_id s).2.1
      = { simulated_db := fun k => if k = item_id then none else s.simulated_db k,
          cache := fun k => if k = itemKey item_id then none else s.cache k,
          queue := s.queue } := by
    by_cases h : (s.cache (itemKey item_id)).isSome <;>
      simp [delete_item, invalidate_cache, redis_delete, delete_item_from_db, h]
  have hev : (delete_item true true item_id s).2.2
      = [Event.dbDelete item_id, Event.cacheDelete (itemKey item_id)] := by
    by_cases h : (s.cache (itemKey item_id)).isSome <;>
      simp [delete_item, invalidate_cache, redis_delete, delete_item_from_db, h]
  refine ⟨by rw [hstate]; simp, by rw [hstate]; simp, hev, ?_⟩
  rw [hstate]
  simp [get_item_cache_aside, redis_get, get_item_from_db]

/-- `CacheJustified` survives extending the trace. -/
theorem cacheJustified_mono (s : State) (tr tr2 : List Event)
    (h : CacheJustified s tr) : CacheJustified s (tr ++ tr2) := by
  refine ⟨fun k r hk => List.mem_append_left _ (h.1 k r hk), fun k r hk => ?_⟩
  rcases h.2 k r hk with ⟨i, hi⟩ | hq
  · exact Or.inl ⟨i, List.mem_append_left _ hi⟩
  · exact Or.inr hq

/-- `CacheJustified` survives a Store write that is recorded in the trace. -/
theorem cacheJustified_dbWrite (s : State) (tr : List Event) (item_id : String)
    (rec : ItemInDB) (h : CacheJustified s tr)
    (hmem : Event.dbWrite item_id rec ∈ tr) :
    CacheJustified (write_item_to_db s item_id rec) tr := by
  refine ⟨fun k r hk => ?_, fun k r hk => h.2 k r hk⟩
  simp only [write_item_to_db] at hk
  by_cases hki : k = item_id
  · subst hki
    rw [if_pos rfl] at hk
    obtain rfl : rec = r := Option.some.inj hk
    exact hmem
  · rw [if_neg hki] at hk
    exact h.1 k r hk

/-- `CacheJustified` survives a cache population with a justified record. -/
theorem cacheJustified_setex (s : State) (tr : List Event) (key : String)
    (rec : ItemInDB) (h : CacheJustified s tr)
    (hjust : (∃ item_id, Event.dbWrite item_id rec ∈ tr) ∨
      (∃ item_id, (item_id, rec) ∈ s.queue)) :
    CacheJustified (redis_setex s key rec) tr := by
  refine ⟨h.1, fun k r hk => ?_⟩
  simp only [redis_setex] at hk
  by_cases hkk : k = key
  · rw [if_pos hkk] at hk
    obtain rfl : rec = r := Option.some.inj hk
    exact hjust
  · rw [if_neg hkk] at hk
    exact h.2 k r hk

/-- `CacheJustified` survives removing a cache entry. -/
theorem cacheJustified_cacheRemove (s : State) (tr : List Event) (key : String)
    (h : CacheJustified s tr) :
    CacheJustified
      { s with cache := fun k => if k = key then none else s.cache k } tr := by
  refine ⟨h.1, fun k r hk => ?_⟩
  by_cases hkk : k = key
  · simp [hkk] at hk
  · simp only [if_neg hkk] at hk
    exact h.2 k r hk

/-- `CacheJustified` survives deleting a Store record. -/
theorem cacheJustified_dbDelete (s : State) (tr : List Event) (item_id : String)
    (h : CacheJustified s tr) :
    CacheJustified (delete_item_from_db s item_id) tr := by
  refine ⟨fun k r hk => ?_, fun k r hk => h.2 k r hk⟩
  simp only [delete_item_from_db] at hk
  by_cases hki : k = item_id
  · simp [hki] at hk
  · rw [if_neg hki] at hk
    exact h.1 k r hk

/-- `CacheJustified` survives the write-behind step: the new cache entry is
justified by the deferred write task appended to the queue. -/
theorem cacheJustified_writeBehind_step (s : State) (tr : List Event)
    (item_id : String) (rec : ItemInDB) (h : CacheJustified s tr) :
    CacheJustified
      { redis_setex s (itemKey item_id) rec with
        queue := (redis_setex s (itemKey item_id) rec).queue ++ [(item_id, rec)] }
      tr := by
  refine ⟨h.1, fun k r hk => ?_⟩
  simp only [redis_setex] at hk ⊢
  by_cases hkk : k = itemKey item_id
  · rw [if_pos hkk] at hk
    obtain rfl : rec = r := Option.some.inj hk
    exact Or.inr ⟨item_id, by simp⟩
  · rw [if_neg hkk] at hk
    rcases h.2 k r hk with he | ⟨i, hi⟩
    · exact Or.inl he
    · exact Or.inr ⟨i, List.mem_append_left _ hi⟩

/-- `CacheJustified` survives the background worker consuming the head
deferred write task: the consumed task's record becomes a recorded Store
write. -/
theorem cacheJustified_deferred_step (s : State) (tr : List Event)
    (item_id : String) (rec : ItemInDB) (rest : List (String × ItemInDB))
    (hq : s.queue = (item_id, rec) :: rest)
    (h : CacheJustified s (tr ++ [Event.dbWrite item_id rec])) :
    CacheJustified
      { write_item_to_db s item_id rec with queue := rest }
      (tr ++ [Event.dbWrite item_id rec]) := by
  refine ⟨fun k r hk => ?_, fun k r hk => ?_⟩
  · simp only [write_item_to_db] at hk
    by_cases hki : k = item_id
    · subst hki
      rw [if_pos rfl] at hk
      obtain rfl : rec = r := Option.some.inj hk
      exact List.mem_append_right _ (by simp)
    · rw [if_neg hki] at hk
      exact h.1 k r hk
  · rcases h.2 k r hk with he | ⟨i, hi⟩
    · exact Or.inl he
    · rw [hq] at hi
      rcases List.mem_cons.mp hi with heq | htail
      · refine Or.inl ⟨item_id, List.mem_append_right _ ?_⟩
        have h2 : r = rec := congrArg Prod.snd heq
        simp [h2]
      · exact Or.inr ⟨i, htail⟩

/-- A successful `invalidate_cache` returns some success message, the state
with the cache key of `item_id` cleared, and a single cache-delete event. -/
theorem invalidate_cache_result (item_id : String) (s : State) :
    ∃ msg, invalidate_cache true item_id s
      = (.ok msg,
         { s with cache := fun k => if k = itemKey item_id then none else s.cache k },
         [Event.cacheDelete (itemKey item_id)]) := by
  by_cases hs : (s.cache (itemKey item_id)).isSome
  · exact ⟨"Cache for item " ++ item_id ++ " invalidated.",
      by simp [invalidate_cache, redis_delete, hs]⟩
  · exact ⟨"Item " ++ item_id ++ " was not in cache.",
      by simp [invalidate_cache, redis_delete, hs]⟩

/-- C3 counterexample: the claim demands that in every reachable state a
cached record be value-identical to a record the Store has held.  After a
single successful `writeBehind` from the initial state — a reachable state —
the cache holds `recA` while no Store write at all has happened (the trace
contains no `dbWrite` event), so the cache holds a value the Store never
held. -/
theorem cache_holds_value_store_never_held_cex :
    Reach wbState wbTrace ∧
    wbState.cache (itemKey "42") = some recA ∧
    ∀ item_id, Event.dbWrite item_id recA ∉ wbTrace := by
  refine ⟨Reach.writeBehind initState [] true "42" itemA 0 Reach.init, ?_, ?_⟩
  · simp [wbState, create_item_write_behind, redis_setex, recA]
  · intro item_id
    simp [wbTrace, create_item_write_behind]

/-- C3 amended: in every reachable state, every record in the Cache is
value-identical either to a record some recorded Store write has held, or to
the record of a Deferred Write Task still pending in the queue (the
write-behind window); and every record in the Store stems from a recorded
Store write. -/
theorem reachable_cache_justified
    (s : State) (tr : List Event) (h : Reach s tr) : CacheJustified s tr := by
  induction h with
  | init =>
    exact ⟨fun k r hk => by simp [initState] at hk,
           fun k r hk => by simp [initState] at hk⟩
  | writeThrough s tr dbOk cacheOk item_id item now hr ih =>
    cases dbOk
    · have hop : (create_item_write_through false cacheOk item_id item now s).2
          = (s, []) := rfl
      rw [hop]
      exact cacheJustified_mono s tr [] ih
    · cases cacheOk
      · have hop : (create_item_write_through true false item_id item now s).2
            = (write_item_to_db s item_id (mkItemData item_id item now),
               [Event.dbWrite item_id (mkItemData item_id item now)]) := rfl
        rw [hop]
        exact cacheJustified_dbWrite _ _ _ _ (cacheJustified_mono s tr _ ih)
          (List.mem_append_right _ (by simp))
      · have hop : (create_item_write_through true true item_id item now s).2
            = (redis_setex (write_item_to_db s item_id (mkItemData item_id item now))
                 (itemKey item_id) (mkItemData item_id item now),
               [Event.dbWrite item_id (mkItemData item_id item now),
                Event.cacheSetex (itemKey item_id) REDIS_TTL_SECONDS
                  (mkItemData item_id item now)]) := rfl
        rw [hop]
        refine cacheJustified_setex _ _ _ _
          (cacheJustified_dbWrite _ _ _ _ (cacheJustified_mono s tr _ ih)
            (List.mem_append_right _ (by simp))) ?_
        exact Or.inl ⟨item_id, List.mem_append_right _ (by simp)⟩
  | writeBehind s tr cacheOk item_id item now hr ih =>
    cases cacheOk
    · have hop : (create_item_write_behind false item_id item now s).2 = (s, []) := rfl
      rw [hop]
      exact cacheJustified_mono s tr [] ih
    · have hop : (create_item_write_behind true item_id item now s).2
          = ({ redis_setex s (itemKey item_id) (mkItemData item_id item now) with
               queue := (redis_setex s (itemKey item_id) (mkItemData item_id item now)).queue
                 ++ [(item_id, mkItemData item_id item now)] },
             [Event.cacheSetex (itemKey item_id) REDIS_TTL_SECONDS
                (mkItemData item_id item now),
              Event.enqueueTask item_id (mkItemData item_id item now)]) := rfl
      rw [hop]
      exact cacheJustified_writeBehind_step _ _ _ _ (cacheJustified_mono s tr _ ih)
  | readThrough s tr cacheGetOk dbOk cacheSetOk item_id hr ih =>
    cases cacheGetOk
    · have hop : (get_item_read_through false dbOk cacheSetOk item_id s).2
          = (s, []) := rfl
      rw [hop]
      exact cacheJustified_mono s tr [] ih
    · rcases hc : s.cache (itemKey item_id) with _ | cached
      · cases dbOk
        · have hop : (get_item_read_through true false cacheSetOk item_id s).2
              = (s, [Event.cacheGet (itemKey item_id)]) := by
            simp [get_item_read_through, read_through_get_item, redis_get, hc]
          rw [hop]
          exact cacheJustified_mono s tr _ ih
        · rcases hdb : s.simulated_db item_id with _ | db_item
          · have hop : (get_item_read_through true true cacheSetOk item_id s).2
                = (s, [Event.cacheGet (itemKey item_id), Event.dbRead item_id]) := by
              simp [get_item_read_through, read_through_get_item, redis_get,
                get_item_from_db, hc, hdb]
            rw [hop]
            exact cacheJustified_mono s tr _ ih
          · cases cacheSetOk
            · have hop : (get_item_read_through true true false item_id s).2
                  = (s, [Event.cacheGet (itemKey item_id), Event.dbRead item_id]) := by
                simp [get_item_read_through, read_through_get_item, redis_get,
                  get_item_from_db, hc, hdb]
              rw [hop]
              exact cacheJustified_mono s tr _ ih
            · have hop : (get_item_read_through true true true item_id s).2
                  = (redis_setex s (itemKey item_id) db_item,
                     [Event.cacheGet (itemKey item_id), Event.dbRead item_id,
                      Event.cacheSetex (itemKey item_id) REDIS_TTL_SECONDS db_item]) := by
                simp [get_item_read_through, read_through_get_item, redis_get,
                  get_item_from_db, hc, hdb]
              rw [hop]
              exact cacheJustified_setex _ _ _ _ (cacheJustified_mono s tr _ ih)
                (Or.inl ⟨item_id, List.mem_append_left _ (ih.1 item_id db_item hdb)⟩)
      · have hop : (get_item_read_through true dbOk cacheSetOk item_id s).2
            = (s, [Event.cacheGet (itemKey item_id)]) := by
          simp [get_item_read_through, read_through_get_item, redis_get, hc]
        rw [hop]
        exact cacheJustified_mono s tr _ ih
  | cacheAside s tr cacheGetOk dbOk cacheSetOk item_id hr ih =>
    cases cacheGetOk
    · have hop : (get_item_cache_aside false dbOk cacheSetOk item_id s).2
          = (s, []) := rfl
      rw [hop]
      exact cacheJustified_mono s tr [] ih
    · rcases hc : s.cache (itemKey item_id) with _ | cached
      · cases dbOk
        · have hop : (get_item_cache_aside true false cacheSetOk item_id s).2
              = (s, [Event.cacheGet (itemKey item_id)]) := by
            simp [get_item_cache_aside, redis_get, hc]
          rw [hop]
          exact cacheJustified_mono s tr _ ih
        · rcases hdb : s.simulated_db item_id with _ | db_item
          · have hop : (get_item_cache_aside true true cacheSetOk item_id s).2
                = (s, [Event.cacheGet (itemKey item_id), Event.dbRead item_id]) := by
              simp [get_item_cache_aside, redis_get, get_item_from_db, hc, hdb]
            rw [hop]
            exact cacheJustified_mono s tr _ ih
          · cases cacheSetOk
            · have hop : (get_item_cache_aside true true false item_id s).2
                  = (s, [Event.cacheGet (itemKey item_id), Event.dbRead item_id]) := by
                simp [get_item_cache_aside, redis_get, get_item_from_db, hc, hdb]
              rw [hop]
              exact cacheJustified_mono s tr _ ih
            · have hop : (get_item_cache_aside true true true item_id s).2
                  = (redis_setex s (itemKey item_id) db_item,
                     [Event.cacheGet (itemKey item_id), Event.dbRead item_id,
                      Event.cacheSetex (itemKey item_id) REDIS_TTL_SECONDS db_item]) := by
                simp [get_item_cache_aside, redis_get, get_item_from_db, hc, hdb]
              rw [hop]
              exact cacheJustified_setex _ _ _ _ (cacheJustified_mono s tr _ ih)
                (Or.inl ⟨item_id, List.mem_append_left _ (ih.1 item_id db_item hdb)⟩)
      · have hop : (get_item_cache_aside true dbOk cacheSetOk item_id s).2
            = (s, [Event.cacheGet (itemKey item_id)]) := by
          simp [get_item_cache_aside, redis_get, hc]
        rw [hop]
        exact cacheJustified_mono s tr _ ih
  | invalidate s tr cacheOk item_id hr ih =>
    cases cacheOk
    · have hop : (invalidate_cache false item_id s).2 = (s, []) := rfl
      rw [hop]
      exact cacheJustified_mono s tr [] ih
    · obtain ⟨msg, hmsg⟩ := invalidate_cache_result item_id s
      have hop : (invalidate_cache true item_id s).2
          = ({ s with cache := fun k => if k = itemKey item_id then none else s.cache k },
             [Event.cacheDelete (itemKey item_id)]) := by
        rw [hmsg]
      rw [hop]
      exact cacheJustified_cacheRemove _ _ _ (cacheJustified_mono s tr _ ih)
  | deleteItem s tr dbOk cacheOk item_id hr ih =>
    cases dbOk
    · have hop : (delete_item false cacheOk item_id s).2 = (s, []) := rfl
      rw [hop]
      exact cacheJustified_mono s tr [] ih
    · cases cacheOk
      · have hop : (delete_item true false item_id s).2
            = (delete_item_from_db s item_id, [Event.dbDelete item_id]) := rfl
        rw [hop]
        exact cacheJustified_dbDelete _ _ _ (cacheJustified_mono s tr _ ih)
      · obtain ⟨msg, hmsg⟩ := invalidate_cache_result item_id (delete_item_from_db s item_id)
        have hop : (delete_item true true item_id s).2
            = ({ delete_item_from_db s item_id with
                 cache := fun k => if k = itemKey item_id then none
                   else (delete_item_from_db s item_id).cache k },
               [Event.dbDelete item_id, Event.cacheDelete (itemKey item_id)]) := by
          simp only [delete_item]
          rw [hmsg]
          rfl
        rw [hop]
        exact cacheJustified_cacheRemove _ _ _
          (cacheJustified_dbDelete _ _ _ (cacheJustified_mono s tr _ ih))
  | deferred s tr hr ih =>
    rcases hq : s.queue with _ | ⟨⟨item_id, rec⟩, rest⟩
    · have hop : runDeferredTask s = (s, []) := by
        simp [runDeferredTask, hq]
      rw [hop]
      exact cacheJustified_mono s tr [] ih
    · have hop : runDeferredTask s
          = ({ write_item_to_db s item_id rec with queue := rest },
             [Event.dbWrite item_id rec]) := by
        simp [runDeferredTask, hq]
      rw [hop]
      exact cacheJustified_deferred_step s tr item_id rec rest hq
        (cacheJustified_mono s tr _ ih)
  | expire s tr key hr ih =>
    exact cacheJustified_cacheRemove s tr key ih

/-- Witness for `reachable_cache_justified` at the concrete reachable
post-`writeBehind` state: the cached record is justified by the pending
deferred write task. -/
theorem reachable_cache_justified_witness :
    (∃ item_id, Event.dbWrite item_id recA ∈ wbTrace) ∨
    (∃ item_id, (item_id, recA) ∈ wbState.queue) :=
  (reachable_cache_justified wbState wbTrace
      (Reach.writeBehind initState [] true "42" itemA 0 Reach.init)).2
    (itemKey "42") recA
    (by simp [wbState, create_item_write_behind, redis_setex, recA])
